import Mathlib

/-!
Verification development for the pumpkin-management repository.

This file gives a shallow embedding of the two core subsystems described by
the spec — the unverify reverification scheduler (`src/unverify/module.py`,
`src/unverify/database.py`) and the dynamic voice-channel pool manager
(`src/voice/module.py`, `src/voice/database.py`) — and proves or refutes the
frozen claims about them.

Conventions of the embedding:
* `datetime` values are modelled as `Int` (seconds); `timedelta(seconds=30)`
  is `30`, `timedelta(hours=1)` is `3600`.
* Discord snowflake ids are `Nat`.
* Python exceptions are modelled by the `PyErr` type; a fallible operation
  returns an `Except PyErr _` (paired with the state it leaves behind where
  the state matters).
* A Python call with keyword arguments that the callee's signature does not
  accept raises `TypeError`; this is modelled by comparing the call's keyword
  names against the parameter-name list of the callee.
* A Python attribute access on a class that does not define the attribute
  raises `AttributeError`; this is modelled by comparing the accessed name
  against the method-name list of the class.
-/

deriving instance DecidableEq for Except

namespace Mgmt

/-- Python exception kinds that matter for the embedded code. -/
inductive PyErr where
  | notFound
  | typeError
  | attributeError
  | valueError
  | multipleResultsFound
  deriving Repr, DecidableEq

/-! ## Unverify data model (`src/unverify/database.py`) -/

/-- `UnverifyStatus` enum (database.py lines 16-20). -/
inductive UnverifyStatus where
  | waiting
  | finished
  | member_left
  | guild_not_found
  deriving Repr, DecidableEq

/-- `UnverifyType` enum (database.py lines 23-25). -/
inductive UnverifyType where
  | selfunverify
  | unverify
  deriving Repr, DecidableEq

/-- A row of `unverify_table` (`UnverifyItem`, database.py lines 118-131). -/
structure UnverifyItem where
  idx : Nat
  guild_id : Nat
  user_id : Nat
  start_time : Int
  end_time : Int
  last_check : Option Int
  roles_to_return : List Nat
  channels_to_return : List Nat
  channels_to_remove : List Nat
  reason : String
  status : UnverifyStatus
  type : UnverifyType
  deriving Repr, DecidableEq

/-- The `unverify_table` contents. -/
abbrev UnverifyDb := List UnverifyItem

/-- SQLAlchemy `Query.one_or_none`: `none` for no row, the row when unique,
`MultipleResultsFound` otherwise. -/
def one_or_none {α : Type} : List α → Except PyErr (Option α)
  | [] => .ok none
  | [a] => .ok (some a)
  | _ :: _ :: _ => .error .multipleResultsFound

/-- Insert a row into a list kept ascending by `end_time` (models
`order_by(UnverifyItem.end_time.asc())`). -/
def insertByEnd (x : UnverifyItem) : List UnverifyItem → List UnverifyItem
  | [] => [x]
  | y :: ys => if x.end_time ≤ y.end_time then x :: y :: ys else y :: insertByEnd x ys

/-- Sort rows ascending by `end_time`. -/
def sortByEnd (l : List UnverifyItem) : List UnverifyItem :=
  l.foldr insertByEnd []

/-- The row filter of `UnverifyItem.get_items` (database.py lines 251-288):
optional equality filters on `type` and `status`, `end_time < max_end_time`,
and `last_check < min_last_checked OR last_check IS NULL`. -/
def get_items_pred (ty : Option UnverifyType) (status : Option UnverifyStatus)
    (max_end_time : Option Int) (min_last_checked : Option Int)
    (r : UnverifyItem) : Bool :=
  (match ty with | none => true | some t => r.type = t) &&
  (match status with | none => true | some s => r.status = s) &&
  (match max_end_time with | none => true | some m => r.end_time < m) &&
  (match min_last_checked with
    | none => true
    | some m => match r.last_check with
      | none => true
      | some lc => lc < m)

/-- `UnverifyItem.get_items` (database.py lines 251-288): filter the table and
return the rows ordered by ascending `end_time`. -/
def get_items (ty : Option UnverifyType) (status : Option UnverifyStatus)
    (max_end_time : Option Int) (min_last_checked : Option Int)
    (db : UnverifyDb) : List UnverifyItem :=
  sortByEnd (db.filter (get_items_pred ty status max_end_time min_last_checked))

/-- The keyword parameter names accepted by `UnverifyItem.get_items`
(database.py lines 252-257). -/
def get_items_param_names : List String :=
  ["type", "status", "max_end_time", "min_last_checked"]

/-- The keyword argument names used at the call site inside
`Unverify.reverifier` (module.py lines 41-45). -/
def reverifier_call_kwargs : List String :=
  ["status", "max_end_time", "min_last_check"]

/-- Whether a Python call's keyword-argument names are all accepted by the
callee's parameter list; when not, the call raises `TypeError`. -/
def kwargsAccepted (paramNames kwargs : List String) : Bool :=
  kwargs.all (fun k => paramNames.contains k)

/-! ## `UnverifyItem.add` (database.py lines 133-198) -/

/-- The query `filter_by(user_id=…, guild_id=…, status=waiting)` shared by
`UnverifyItem.add` (database.py lines 173-181) and the
`UnverifyItem.get_member(member, status=waiting)` call of
`_unverify_member` (module.py line 431, database.py lines 208-233). -/
def get_member_waiting (db : UnverifyDb) (guild_id user_id : Nat) : List UnverifyItem :=
  db.filter (fun r =>
    r.user_id = user_id && r.guild_id = guild_id &&
    r.status = UnverifyStatus.waiting)

/-- The row `UnverifyItem.add` constructs (database.py lines 185-195);
`status` takes the column default `waiting`, `idx` the autoincrement value. -/
def addedRow (db : UnverifyDb) (now : Int) (guild_id user_id : Nat)
    (end_time : Int)
    (roles_to_return channels_to_return channels_to_remove : List Nat)
    (reason : String) (ty : UnverifyType) : UnverifyItem :=
  { idx := db.foldr (fun r m => max m (r.idx + 1)) 0
    guild_id := guild_id
    user_id := user_id
    start_time := now
    end_time := end_time
    last_check := none
    roles_to_return := roles_to_return
    channels_to_return := channels_to_return
    channels_to_remove := channels_to_remove
    reason := reason
    status := UnverifyStatus.waiting
    type := ty }

/-- `UnverifyItem.add`: raise `ValueError` when `end_time < start_time`
(`start_time = datetime.now()`); query the waiting row of the member with
`one_or_none` and raise `ValueError` when one exists; otherwise insert the
new row (status defaulting to `waiting`) and return it.  The second component
is the table after the call (unchanged when an exception is raised). -/
def UnverifyItem.add (db : UnverifyDb) (now : Int) (guild_id user_id : Nat)
    (end_time : Int) (roles_to_return channels_to_return channels_to_remove : List Nat)
    (reason : String) (ty : UnverifyType) :
    Except PyErr UnverifyItem × UnverifyDb :=
  let start_time := now
  if end_time < start_time then
    (.error .valueError, db)
  else
    let matching := get_member_waiting db guild_id user_id
    match one_or_none matching with
    | .error e => (.error e, db)
    | .ok (some _) => (.error .valueError, db)
    | .ok none =>
      let added := addedRow db now guild_id user_id end_time
        roles_to_return channels_to_return channels_to_remove reason ty
      (.ok added, db ++ [added])

/-! ## Reverifier (`src/unverify/module.py`) -/

/-- What the live chat-client cache reports for one record: whether
`bot.get_guild` finds the guild, whether `guild.get_member` finds the member,
whether the fallback `guild.fetch_member` network call finds the member, which
role/channel ids still exist in the guild, the resolved configured unverify
role, and whether the member accepts direct messages. -/
structure LookupEnv where
  guildFound : Bool
  memberCached : Bool
  memberFetchFound : Bool
  guildRoles : List Nat
  guildChannels : List Nat
  unverifyRole : Option Nat
  dmAllowed : Bool
  deriving Repr, DecidableEq

/-- One external side effect issued by the restore sequence. -/
inductive REffect where
  | addRole (role : Nat)
  | grantRead (channel : Nat)
  | clearRead (channel : Nat)
  | removeUnverifyRole (role : Nat)
  | dmSent
  deriving Repr, DecidableEq

/-- `Unverify._get_guild` (module.py lines 55-74): when the guild is absent,
set `status` to `guild_not_found` (only when not already so), stamp
`last_check`, save, and raise `NotFound`.  Returns the raised exception (if
any) together with the persisted row. -/
def get_guild (env : LookupEnv) (item : UnverifyItem) (now : Int) :
    Except PyErr Unit × UnverifyItem :=
  if env.guildFound then
    (.ok (), item)
  else
    let item1 :=
      if item.status ≠ UnverifyStatus.guild_not_found then
        { item with status := UnverifyStatus.guild_not_found }
      else item
    (.error .notFound, { item1 with last_check := some now })

/-- `Unverify._get_member` (module.py lines 76-101): cache lookup, then a
network fetch.  When the fetch reports `NotFound` and the row's status is not
yet `member_left`, the handler evaluates `member.guild.id` although `member`
is `None` at that point (module.py line 85), raising `AttributeError` before
any mutation; when the status is already `member_left`, it stamps
`last_check`, saves, and re-raises `NotFound`. -/
def get_member (env : LookupEnv) (item : UnverifyItem) (now : Int) :
    Except PyErr Unit × UnverifyItem :=
  if env.memberCached then
    (.ok (), item)
  else if env.memberFetchFound then
    (.ok (), item)
  else if item.status ≠ UnverifyStatus.member_left then
    (.error .attributeError, item)
  else
    (.error .notFound, { item with last_check := some now })

/-- The external side effects of the main body of `Unverify._reverify_user`
(module.py lines 236-296): return each saved role that still exists, grant
read access on each saved channel to return, clear the temporary overwrite on
each saved channel to remove, remove the configured unverify role when it
resolves, and send the direct message when the member allows it. -/
def restore_effects (env : LookupEnv) (item : UnverifyItem) : List REffect :=
  (item.roles_to_return.filter (fun r => env.guildRoles.contains r)).map .addRole
    ++ (item.channels_to_return.filter (fun c => env.guildChannels.contains c)).map .grantRead
    ++ (item.channels_to_remove.filter (fun c => env.guildChannels.contains c)).map .clearRead
    ++ (match env.unverifyRole with
        | some r => [.removeUnverifyRole r]
        | none => [])
    ++ (if env.dmAllowed then [REffect.dmSent] else [])

/-- `Unverify._reverify_user` (module.py lines 213-296): resolve guild and
member, catching only `NotFound` (any other exception propagates); on
success, wait out the remaining time, run the restore effects, and mark the
row `finished`.  Returns the escaping exception (if any), the persisted row,
and the effects issued. -/
def reverify_user (env : LookupEnv) (item : UnverifyItem) (now : Int) :
    Except PyErr Unit × UnverifyItem × List REffect :=
  match get_guild env item now with
  | (.error .notFound, item1) => (.ok (), item1, [])
  | (.error e, item1) => (.error e, item1, [])
  | (.ok _, item0) =>
    match get_member env item0 now with
    | (.error .notFound, item1) => (.ok (), item1, [])
    | (.error e, item1) => (.error e, item1, [])
    | (.ok _, item1) =>
      (.ok (), { item1 with status := UnverifyStatus.finished },
        restore_effects env item1)

/-- The loop body of `Unverify.reverifier` (module.py lines 46-48):
`_reverify_user` on each selected row in order; an exception escaping one
call aborts the loop.  Returns the escaping exception (if any) together with
the rows processed (each with its persisted state and effects). -/
def run_items (lookup : UnverifyItem → LookupEnv) (now : Int) :
    List UnverifyItem → Except PyErr Unit × List (UnverifyItem × List REffect)
  | [] => (.ok (), [])
  | i :: rest =>
    match reverify_user (lookup i) i now with
    | (.ok _, item1, effs) =>
      let r := run_items lookup now rest
      (r.1, (item1, effs) :: r.2)
    | (.error e, item1, effs) => (.error e, [(item1, effs)])

/-- `Unverify.reverifier` (module.py lines 37-48): one tick computes
`max_end_time = now + 30`, `min_last_check = now - 3600` and calls
`UnverifyItem.get_items(status=waiting, max_end_time=…, min_last_check=…)`.
The call's keyword names must be accepted by the signature of `get_items`;
otherwise the call raises `TypeError` and no row is processed. -/
def reverifier_tick (lookup : UnverifyItem → LookupEnv) (db : UnverifyDb)
    (now : Int) : Except PyErr Unit × List (UnverifyItem × List REffect) :=
  if kwargsAccepted get_items_param_names reverifier_call_kwargs then
    run_items lookup now
      (get_items none (some UnverifyStatus.waiting) (some (now + 30))
        (some (now - 3600)) db)
  else
    (.error .typeError, [])

/-! ## Imposition (`Unverify._unverify_member`, module.py lines 423-454) -/

/-- What one guild channel looks like from the restricted member's side:
whether it is a category channel, the resolved
`channel.permissions_for(member).read_messages`, and the member-specific
`channel.overwrites_for(member).read_messages` (a Python `True`/`False`/
`None` tristate). -/
structure ChannelView where
  id : Nat
  isCategory : Bool
  permsRead : Bool
  overwRead : Option Bool
  deriving Repr, DecidableEq

/-- The member being restricted: identity, currently held role ids, and the
guild's channels as the member sees them. -/
structure MemberCtx where
  guild_id : Nat
  user_id : Nat
  roles : List Nat
  channels : List ChannelView
  deriving Repr, DecidableEq

/-- One external side effect issued while imposing a restriction. -/
inductive IEffect where
  | removeRole (role : Nat)
  | addUnverifyRole (role : Nat)
  | setRead (channel : Nat) (read : Option Bool)
  deriving Repr, DecidableEq

/-- Python truthiness of an `Optional[bool]`: only `True` is truthy. -/
def truthyOptBool : Option Bool → Bool
  | some b => b
  | none => false

/-- `channels_to_keep is not None and channel in channels_to_keep`
(module.py line 373). -/
def inKeepB (keep : Option (List Nat)) (id : Nat) : Bool :=
  match keep with
  | some l => l.contains id
  | none => false

/-- The loop body of `Unverify._remove_or_keep_channels` (module.py lines
366-421) for one channel: category channels are skipped; a kept channel the
member cannot read gets a read-granting overwrite and is recorded as a
channel to remove later; a channel with resolved read access but no truthy
member overwrite is passed over; a channel without read access is passed
over; the remaining case (resolved read access and a truthy member
overwrite) gets the overwrite set to deny and is recorded as a channel to
return later.  Returns (removed, added, effects) contributions. -/
def keep_or_remove_step (keep : Option (List Nat)) (c : ChannelView) :
    List Nat × List Nat × List IEffect :=
  if c.isCategory then
    ([], [], [])
  else if inKeepB keep c.id then
    if !c.permsRead then
      ([], [c.id], [.setRead c.id (some true)])
    else
      ([], [], [])
  else if c.permsRead && !truthyOptBool c.overwRead then
    ([], [], [])
  else if !c.permsRead then
    ([], [], [])
  else
    ([c.id], [], [.setRead c.id (some false)])

/-- `Unverify._remove_or_keep_channels` (module.py lines 357-421): fold the
per-channel step over the guild's channels, accumulating the
channels-to-return list, the channels-to-remove list, and the overwrite
effects, in channel order. -/
def remove_or_keep_channels (m : MemberCtx) (keep : Option (List Nat)) :
    List Nat × List Nat × List IEffect :=
  m.channels.foldr
    (fun c acc =>
      let s := keep_or_remove_step keep c
      (s.1 ++ acc.1, s.2.1 ++ acc.2.1, s.2.2 ++ acc.2.2))
    ([], [], [])

/-- `Unverify._remove_roles` (module.py lines 298-355): remove every role the
member holds (collecting them as roles to return) and grant the configured
unverify role when it resolves.  Returns the removed role ids and the
effects. -/
def remove_roles (m : MemberCtx) (unverifyRole : Option Nat) :
    List Nat × List IEffect :=
  let removed := m.roles
  let effs := m.roles.map IEffect.removeRole
  match unverifyRole with
  | some r => (removed, effs ++ [.addUnverifyRole r])
  | none => (removed, effs)

/-- `Unverify._unverify_member` (module.py lines 423-454): reject with
`ValueError` when the member already has a waiting row (before any side
effect); otherwise remove roles, compute channel changes, truncate the reason
to 1024 characters, and insert the row through `UnverifyItem.add`.  Returns
the result, the side effects issued, and the table after the call. -/
def unverify_member (db : UnverifyDb) (now : Int) (m : MemberCtx)
    (end_time : Int) (reason : String) (ty : UnverifyType)
    (keep : Option (List Nat)) (unverifyRole : Option Nat) :
    Except PyErr UnverifyItem × List IEffect × UnverifyDb :=
  if get_member_waiting db m.guild_id m.user_id ≠ [] then
    (.error .valueError, [], db)
  else
    let rr := remove_roles m unverifyRole
    let ch := remove_or_keep_channels m keep
    let reason1 := if reason.length > 1024 then reason.take 1024 else reason
    let a := UnverifyItem.add db now m.guild_id m.user_id end_time
      rr.1 ch.1 ch.2.1 reason1 ty
    (a.1, rr.2 ++ ch.2.2, a.2)

/-- At most one `waiting` row per (guild id, user id) pair. -/
def atMostOneWaiting (db : UnverifyDb) : Prop :=
  ∀ g u, (get_member_waiting db g u).length ≤ 1

instance : DecidablePred atMostOneWaiting := fun db =>
  decidable_of_iff
    (∀ r ∈ db, (get_member_waiting db r.guild_id r.user_id).length ≤ 1)
    (by
      constructor
      · intro h g u
        cases hm : get_member_waiting db g u with
        | nil => simp
        | cons r rs =>
          have hr : r ∈ get_member_waiting db g u := by
            rw [hm]; exact List.mem_cons_self r rs
          have hrdb : r ∈ db := List.mem_of_mem_filter hr
          have hprops := List.of_mem_filter hr
          simp only [Bool.and_eq_true, decide_eq_true_eq] at hprops
          have : get_member_waiting db r.guild_id r.user_id
              = get_member_waiting db g u := by
            rw [hprops.1.2, hprops.1.1]
          rw [← hm, ← this]
          exact h r hrdb
      · intro h r _
        exact h r.guild_id r.user_id)

/-! ## Voice pool (`src/voice/module.py`, `src/voice/database.py`) -/

/-- `HIGH_RES_CHANNEL` name tag, module.py line 20. -/
def hiResMark : String := "HI-RES-"

/-- Python `str.startswith`. -/
def strStarts (p s : String) : Bool := p.data.isPrefixOf s.data

/-- Whether a channel name carries the high-bitrate tag
(`x.name.startswith(HIGH_RES_CHANNEL_…)`, module.py line 158). -/
def isHiRes (name : String) : Bool := strStarts hiResMark name

/-- `ADJECTIVES`, module.py line 21. -/
def ADJECTIVES : List String :=
  ["Red", "Green", "Blue", "Black", "White", "Pink", "Orange"]

/-- `NOUNS`, module.py lines 22-41. -/
def NOUNS : List String :=
  ["cat", "dog", "elephant", "horse", "mouse", "fish", "octopus", "cockroach",
   "butterfly", "owl", "fox", "tiger", "bear", "sheep", "duck", "panda",
   "rabbit", "wolf"]

/-- `f"{choice(ADJECTIVES)} {choice(NOUNS)}"` (module.py line 101); the two
random choices are modelled by the index arguments reduced modulo the list
lengths. -/
def twoWordName (ai ni : Nat) : String :=
  ADJECTIVES.getD (ai % ADJECTIVES.length) "" ++ " "
    ++ NOUNS.getD (ni % NOUNS.length) ""

/-- Python truthiness of an `Optional[int]`: `None` and `0` are falsy. -/
def truthyOptInt : Option Int → Bool
  | none => false
  | some b => b != 0

/-- A voice (or other) channel of the managed category. `bitrate = none`
means the channel was created without an explicit bitrate option. -/
structure VChannel where
  id : Nat
  isVoice : Bool
  name : String
  membersCount : Nat
  hasLastMessage : Bool
  bitrate : Option Int
  deriving Repr, DecidableEq

/-- The managed category: its channels and the guild's bitrate limit. -/
structure Category where
  channels : List VChannel
  guildBitrateLimit : Int
  deriving Repr, DecidableEq

/-- A fresh channel id. -/
def Category.nextId (cat : Category) : Nat :=
  cat.channels.foldr (fun c m => max m (c.id + 1)) 0

/-- `Voice._create_channel` (module.py lines 91-104): when the bitrate
argument is truthy, pass `bitrate = min(bitrate, guild.bitrate_limit)` and
put the HI-RES tag in front of the random two-word name; otherwise pass no
bitrate option and use the plain name.  Returns the category with the new
channel and the channel itself. -/
def create_channel (cat : Category) (bitrate : Option Int) (ai ni : Nat) :
    Category × VChannel :=
  let opts : Option Int :=
    if truthyOptInt bitrate then
      some (min (bitrate.getD 0) cat.guildBitrateLimit)
    else none
  let base := twoWordName ai ni
  let name := if truthyOptInt bitrate then hiResMark ++ base else base
  let ch : VChannel :=
    { id := cat.nextId, isVoice := true, name := name, membersCount := 0,
      hasLastMessage := false, bitrate := opts }
  ({ cat with channels := cat.channels ++ [ch] }, ch)

/-- Result of one `__maintain_one_empty_channel` pass. -/
structure MaintainResult where
  category : Category
  deleted : List VChannel
  created : Option VChannel
  deriving Repr, DecidableEq

/-- The `empty_channels` filter of `Voice.__maintain_one_empty_channel`
(module.py lines 153-162): voice channels with no members whose HI-RES tag
matches the requested kind (`high_resolution = False if bitrate is None else
True`). -/
def empty_channels_of (cat : Category) (bitrate : Option Int) : List VChannel :=
  cat.channels.filter (fun x =>
    x.isVoice && x.membersCount == 0 && (bitrate.isSome == isHiRes x.name))

/-- The `abandoned_channels` filter (module.py lines 165-167): empty channels
of the kind that have a last message. -/
def abandoned_channels_of (cat : Category) (bitrate : Option Int) : List VChannel :=
  (empty_channels_of cat bitrate).filter (fun x => x.hasLastMessage)

/-- `Voice.__maintain_one_empty_channel` (module.py lines 146-171): compute
the empty and abandoned channels of the kind; when
`len(empty) - len(abandoned) < 1`, create one channel of the kind; then
delete every abandoned channel. -/
def maintain_one_empty (cat : Category) (bitrate : Option Int) (ai ni : Nat) :
    MaintainResult :=
  let empties := empty_channels_of cat bitrate
  let abandoned := abandoned_channels_of cat bitrate
  let step :=
    if (empties.length : Int) - (abandoned.length : Int) < 1 then
      let r := create_channel cat bitrate ai ni
      (r.1, some r.2)
    else (cat, (none : Option VChannel))
  { category :=
      { step.1 with channels := step.1.channels.filter (fun c => decide (c ∉ abandoned)) }
    deleted := abandoned
    created := step.2 }

/-- A row of `mgmt_voice_locked` (`LockedChannels`, database.py lines 70-75). -/
structure LockedRow where
  guild_id : Nat
  channel_id : Nat
  locked : Bool
  deriving Repr, DecidableEq

/-- The lock-bookkeeping sweep at the top of `Voice._sync` (module.py lines
176-183): drop rows whose guild no longer has valid settings or whose
channel no longer resolves. -/
def sweep_locked (validGuild liveChannel : Nat → Bool) (rows : List LockedRow) :
    List LockedRow :=
  rows.filter (fun r => validGuild r.guild_id && liveChannel r.channel_id)

/-- `Voice._sync` (module.py lines 173-191) restricted to one guild whose
category resolves: sweep the lock rows, run the high-bitrate maintain pass
when `setting.high_res_bitrate` is truthy, then the standard pass.  The
`a1 n1 a2 n2` arguments are the random name choices of the two passes. -/
def sync_pass (validGuild liveChannel : Nat → Bool) (locked : List LockedRow)
    (cat : Category) (hiRate : Option Int) (a1 n1 a2 n2 : Nat) :
    List LockedRow × Category :=
  let locked1 := sweep_locked validGuild liveChannel locked
  let cat1 :=
    if truthyOptInt hiRate then (maintain_one_empty cat hiRate a1 n1).category
    else cat
  (locked1, (maintain_one_empty cat1 none a2 n2).category)

/-- A row of `mgmt_voice_settings` (`VoiceSettings`, database.py lines 10-15). -/
structure VoiceSettingsRow where
  guild_id : Nat
  category_id : Option Nat
  high_res_bitrate : Option Int
  deriving Repr, DecidableEq

/-- `VoiceSettings.get` (database.py lines 52-54); `guild_id` is the primary
key, so the first matching row is the row. -/
def VoiceSettings.get (tbl : List VoiceSettingsRow) (guild_id : Nat) :
    Option VoiceSettingsRow :=
  tbl.find? (fun r => r.guild_id == guild_id)

/-- `VoiceSettings.set_high_bitrate` (database.py lines 30-41): raise
`ValueError` when the bitrate is truthy and outside `64000 < b < 384000`,
before touching the table; otherwise upsert the guild's row with the new
bitrate.  The second component is the table after the call. -/
def set_high_bitrate (tbl : List VoiceSettingsRow) (guild_id : Nat)
    (bitrate : Int) : Except PyErr VoiceSettingsRow × List VoiceSettingsRow :=
  if bitrate ≠ 0 ∧ ¬(64000 < bitrate ∧ bitrate < 384000) then
    (.error .valueError, tbl)
  else
    match VoiceSettings.get tbl guild_id with
    | none =>
      let row : VoiceSettingsRow :=
        { guild_id := guild_id, category_id := none,
          high_res_bitrate := some bitrate }
      (.ok row, tbl ++ [row])
    | some r =>
      let row := { r with high_res_bitrate := some bitrate }
      (.ok row, tbl.map (fun s => if s.guild_id == guild_id then row else s))

/-- The method names defined on the `LockedChannels` class (database.py
lines 77-122); an access to any other attribute raises `AttributeError`. -/
def lockedChannelsMethods : List String :=
  ["lock", "unlock", "remove", "is_locked", "get_all"]

/-- A channel as seen by the voice-state listener. -/
structure EvtChannel where
  id : Nat
  categoryId : Option Nat
  hasLastMessage : Bool
  membersCount : Nat
  deriving Repr, DecidableEq

/-- An action taken by the voice-state listener. -/
inductive VAction where
  | clearLock (channel : Nat)
  | welcome (channel : Nat)
  | syncRun
  | removeLockRow (channel : Nat)
  | deleteChannel (channel : Nat)
  deriving Repr, DecidableEq

/-- `Voice.on_voice_state_update` (module.py lines 193-224): bail out when
settings are invalid, when nothing changed, or when neither channel belongs
to the configured category.  On a join into the managed category, a channel
with no last message triggers `LockedChannels.set_lock(guild, after, False)`
— an attribute that the `LockedChannels` class does not define, raising
`AttributeError` — then the welcome message and a sync; a previously used
channel only triggers the sync.  On a leave that empties a managed channel,
its lock row is dropped and the channel deleted.  The embedding assumes the
configured category resolves and that the channels carry their category id. -/
def on_voice_state_update (settingsValid : Bool) (category_id : Nat)
    (categoryChannelIds : List Nat) (before after : Option EvtChannel) :
    Except PyErr Unit × List VAction :=
  if !settingsValid then (.ok (), [])
  else
    let beq : Bool :=
      match before, after with
      | none, none => true
      | some b, some a => b == a
      | _, _ => false
    if beq then (.ok (), [])
    else
      let inCat : Option EvtChannel → Bool := fun o =>
        match o with
        | some c => categoryChannelIds.contains c.id
        | none => false
      if !inCat before && !inCat after then (.ok (), [])
      else
        let afterRes : Except PyErr (List VAction) :=
          match after with
          | some a =>
            if a.categoryId = some category_id then
              if a.hasLastMessage = false then
                if lockedChannelsMethods.contains "set_lock" then
                  .ok [VAction.clearLock a.id, VAction.welcome a.id,
                       VAction.syncRun]
                else .error .attributeError
              else .ok [VAction.syncRun]
            else .ok []
          | none => .ok []
        match afterRes with
        | .error e => (.error e, [])
        | .ok acts1 =>
          let beforeActs : List VAction :=
            match before with
            | some b =>
              if b.categoryId = some category_id then
                if b.membersCount < 1 then
                  [VAction.removeLockRow b.id, VAction.deleteChannel b.id]
                else []
              else []
            | none => []
          (.ok (), acts1 ++ beforeActs)

/-! ## Helper lemmas -/

theorem isPrefixOf_append_self {α : Type} [BEq α] [LawfulBEq α]
    (l t : List α) : l.isPrefixOf (l ++ t) = true := by
  induction l with
  | nil => simp [List.isPrefixOf]
  | cons a as ih => simp [List.isPrefixOf, ih]

/-- A name built by putting the HI-RES tag in front is recognised as
high-bitrate. -/
theorem isHiRes_mark_append (s : String) : isHiRes (hiResMark ++ s) = true := by
  unfold isHiRes strStarts
  rw [String.data_append]
  exact isPrefixOf_append_self _ _

/-- No random two-word channel name starts with the HI-RES tag. -/
theorem isHiRes_twoWordName (ai ni : Nat) :
    isHiRes (twoWordName ai ni) = false := by
  have h1 : ai % ADJECTIVES.length < ADJECTIVES.length :=
    Nat.mod_lt _ (by decide)
  have h2 : ni % NOUNS.length < NOUNS.length := Nat.mod_lt _ (by decide)
  have ha : ADJECTIVES.getD (ai % ADJECTIVES.length) "" ∈ ADJECTIVES := by
    rw [List.getD_eq_getElem ADJECTIVES "" h1]
    exact List.getElem_mem h1
  have hn : NOUNS.getD (ni % NOUNS.length) "" ∈ NOUNS := by
    rw [List.getD_eq_getElem NOUNS "" h2]
    exact List.getElem_mem h2
  have key : ∀ a ∈ ADJECTIVES, ∀ n ∈ NOUNS, isHiRes (a ++ " " ++ n) = false := by
    decide
  exact key _ ha _ hn

theorem mem_insertByEnd (x y : UnverifyItem) (l : List UnverifyItem) :
    y ∈ insertByEnd x l ↔ y ∈ x :: l := by
  induction l with
  | nil => simp [insertByEnd]
  | cons z zs ih =>
    simp only [insertByEnd]
    split
    · simp
    · simp only [List.mem_cons, ih, List.mem_cons]
      tauto

theorem mem_sortByEnd (l : List UnverifyItem) (y : UnverifyItem) :
    y ∈ sortByEnd l ↔ y ∈ l := by
  induction l with
  | nil => simp [sortByEnd]
  | cons z zs ih =>
    simp only [sortByEnd, List.foldr] at ih ⊢
    rw [mem_insertByEnd]
    simp [ih]

/-- Row selection of `get_items`: membership in the result is membership in
the table together with the filter predicate. -/
theorem mem_get_items (ty : Option UnverifyType) (status : Option UnverifyStatus)
    (met mlc : Option Int) (db : UnverifyDb) (r : UnverifyItem) :
    r ∈ get_items ty status met mlc db ↔
      r ∈ db ∧ get_items_pred ty status met mlc r = true := by
  unfold get_items
  rw [mem_sortByEnd, List.mem_filter]

/-- With the arguments the reverifier intends to pass, `get_items` selects
exactly the waiting rows due inside the lookahead window whose last check is
absent or stale. -/
theorem mem_get_items_reverifier_intent (db : UnverifyDb) (now : Int)
    (r : UnverifyItem) :
    r ∈ get_items none (some UnverifyStatus.waiting) (some (now + 30))
        (some (now - 3600)) db ↔
      r ∈ db ∧ r.status = UnverifyStatus.waiting ∧ r.end_time < now + 30 ∧
        (r.last_check = none ∨ ∃ lc, r.last_check = some lc ∧ lc < now - 3600) := by
  rw [mem_get_items]
  unfold get_items_pred
  constructor
  · rintro ⟨hdb, hp⟩
    refine ⟨hdb, ?_⟩
    simp only [Bool.and_eq_true, decide_eq_true_eq] at hp
    obtain ⟨⟨⟨-, h1⟩, h2⟩, h3⟩ := hp
    refine ⟨h1, h2, ?_⟩
    cases hlc : r.last_check with
    | none => exact Or.inl rfl
    | some lc =>
      rw [hlc] at h3
      exact Or.inr ⟨lc, rfl, by simpa using h3⟩
  · rintro ⟨hdb, h1, h2, h3⟩
    refine ⟨hdb, ?_⟩
    simp only [Bool.and_eq_true, decide_eq_true_eq]
    refine ⟨⟨⟨trivial, h1⟩, h2⟩, ?_⟩
    rcases h3 with hnone | ⟨lc, hlc, hstale⟩
    · rw [hnone]
    · rw [hlc]; simpa using hstale

/-! ## Claims -/

/-- C1: the claim says every reconciler tick selects the waiting rows due in
the lookahead window with absent-or-stale last check and runs the restore
sequence on each.  The code cannot: `Unverify.reverifier` (module.py lines
41-45) passes the keyword `min_last_check` to `UnverifyItem.get_items`,
whose signature (database.py lines 252-257) only accepts
`min_last_checked`, so every tick raises `TypeError` before selecting or
processing anything. -/
theorem c1_reverifier_tick_raises_type_error
    (lookup : UnverifyItem → LookupEnv) (db : UnverifyDb) (now : Int) :
    reverifier_tick lookup db now = (.error .typeError, []) := by
  unfold reverifier_tick
  have h : kwargsAccepted get_items_param_names reverifier_call_kwargs = false := by
    decide
  rw [h]
  simp

/-- C9: `UnverifyItem.add` called with an end time earlier than the current
time raises `ValueError` and leaves the unverify table unchanged, regardless
of the caller-level end-time checks. -/
theorem c9_add_rejects_past_end_time (db : UnverifyDb) (now : Int)
    (g u : Nat) (end_time : Int) (roles chret chrem : List Nat)
    (reason : String) (ty : UnverifyType) (h : end_time < now) :
    UnverifyItem.add db now g u end_time roles chret chrem reason ty
      = (.error .valueError, db) := by
  unfold UnverifyItem.add
  simp [h]

theorem c9_add_rejects_past_end_time_witness :
    (50 : Int) < 100 ∧
      UnverifyItem.add [] 100 1 2 50 [] [] [] "r" UnverifyType.unverify
        = (.error .valueError, []) :=
  ⟨by decide, c9_add_rejects_past_end_time [] 100 1 2 50 [] [] [] "r"
    UnverifyType.unverify (by decide)⟩

/-- C8 counterexample: bitrate `0` lies outside the allowed range
`64000 < b < 384000`, yet `VoiceSettings.set_high_bitrate` does not raise —
the truthiness guard `if bitrate and …` skips the range check for `0` — and
the settings row is written. -/
theorem c8_counterexample_zero_accepted :
    ¬(64000 < (0 : Int) ∧ (0 : Int) < 384000) ∧
      set_high_bitrate [] 1 0
        = (.ok { guild_id := 1, category_id := none, high_res_bitrate := some 0 },
           [{ guild_id := 1, category_id := none, high_res_bitrate := some 0 }]) := by
  decide

/-- C8 amended: for every nonzero bitrate outside the range
`64000 < b < 384000`, `VoiceSettings.set_high_bitrate` raises `ValueError`
synchronously before any write, leaving the stored settings unchanged; a
zero bitrate bypasses the check. -/
theorem c8_set_high_bitrate_rejects_out_of_range
    (tbl : List VoiceSettingsRow) (guild_id : Nat) (bitrate : Int)
    (h0 : bitrate ≠ 0) (h : ¬(64000 < bitrate ∧ bitrate < 384000)) :
    set_high_bitrate tbl guild_id bitrate = (.error .valueError, tbl) := by
  unfold set_high_bitrate
  rw [if_pos ⟨h0, h⟩]

theorem c8_set_high_bitrate_rejects_out_of_range_witness :
    (500000 : Int) ≠ 0 ∧ ¬(64000 < (500000 : Int) ∧ (500000 : Int) < 384000) ∧
      set_high_bitrate [] 1 500000 = (.error .valueError, []) :=
  ⟨by decide, by decide,
    c8_set_high_bitrate_rejects_out_of_range [] 1 500000 (by decide) (by decide)⟩

/-- C10 counterexample: `_create_channel` called with the non-null bitrate
`0` — `if bitrate` is falsy for `0` — passes no bitrate option and adds no
HI-RES tag, contradicting the claim's "for every non-null bitrate". -/
theorem c10_counterexample_zero_bitrate :
    (some (0 : Int)).isSome = true ∧
      (create_channel { channels := [], guildBitrateLimit := 96000 }
        (some 0) 0 0).2.bitrate = none ∧
      isHiRes (create_channel { channels := [], guildBitrateLimit := 96000 }
        (some 0) 0 0).2.name = false := by
  refine ⟨rfl, rfl, ?_⟩
  exact isHiRes_twoWordName 0 0

/-- C10 amended: for every nonzero bitrate, the created channel's bitrate is
the minimum of the request and the guild's limit and its name carries the
HI-RES tag; without a bitrate (and likewise for `0`, by the counterexample),
no bitrate option is passed and no tag is added. -/
theorem c10_create_channel_caps_and_tags (cat : Category) (b : Int)
    (ai ni : Nat) (hb : b ≠ 0) :
    ((create_channel cat (some b) ai ni).2.bitrate
        = some (min b cat.guildBitrateLimit) ∧
      isHiRes (create_channel cat (some b) ai ni).2.name = true) ∧
    ∀ ai2 ni2 : Nat, (create_channel cat none ai2 ni2).2.bitrate = none ∧
      isHiRes (create_channel cat none ai2 ni2).2.name = false := by
  have htr : truthyOptInt (some b) = true := by
    simp [truthyOptInt, hb]
  constructor
  · constructor
    · simp [create_channel, htr]
    · simp only [create_channel, htr, if_true]
      exact isHiRes_mark_append _
  · intro ai2 ni2
    constructor
    · simp [create_channel, truthyOptInt]
    · simp only [create_channel, truthyOptInt, Bool.false_eq_true, if_false]
      exact isHiRes_twoWordName ai2 ni2

theorem c10_create_channel_caps_and_tags_witness :
    (128000 : Int) ≠ 0 ∧
      ((create_channel { channels := [], guildBitrateLimit := 96000 }
          (some 128000) 0 0).2.bitrate = some 96000 ∧
        isHiRes (create_channel { channels := [], guildBitrateLimit := 96000 }
          (some 128000) 0 0).2.name = true) ∧
      (create_channel { channels := [], guildBitrateLimit := 96000 }
        none 1 1).2.bitrate = none := by
  refine ⟨by decide, ?_, ?_⟩
  · have h := c10_create_channel_caps_and_tags
      { channels := [], guildBitrateLimit := 96000 } 128000 0 0 (by decide)
    exact ⟨h.1.1, h.1.2⟩
  · exact ((c10_create_channel_caps_and_tags
      { channels := [], guildBitrateLimit := 96000 } 128000 0 0 (by decide)).2 1 1).1

/-- `UnverifyItem.add` on a table with no waiting row for the member and an
end time not in the past inserts exactly the constructed row. -/
theorem add_inserts (db : UnverifyDb) (now : Int) (g u : Nat) (end_time : Int)
    (roles chret chrem : List Nat) (reason : String) (ty : UnverifyType)
    (hn : ¬ end_time < now) (hw : get_member_waiting db g u = []) :
    UnverifyItem.add db now g u end_time roles chret chrem reason ty
      = (.ok (addedRow db now g u end_time roles chret chrem reason ty),
         db ++ [addedRow db now g u end_time roles chret chrem reason ty]) := by
  unfold UnverifyItem.add
  rw [if_neg hn, hw]
  rfl

/-- Appending a waiting row for a pair that had none preserves the
at-most-one-waiting-row invariant. -/
theorem atMostOneWaiting_append_added (db : UnverifyDb) (row : UnverifyItem)
    (hw : get_member_waiting db row.guild_id row.user_id = [])
    (hinv : atMostOneWaiting db) : atMostOneWaiting (db ++ [row]) := by
  intro g u
  have hsplit : get_member_waiting (db ++ [row]) g u
      = get_member_waiting db g u ++ get_member_waiting [row] g u := by
    unfold get_member_waiting
    exact List.filter_append _ _
  rw [hsplit, List.length_append]
  by_cases hgu : row.user_id = u ∧ row.guild_id = g
  · have h0 : get_member_waiting db g u = [] := by
      rw [← hgu.1, ← hgu.2]
      exact hw
    rw [h0]
    simp only [List.length_nil, Nat.zero_add]
    have hle : (get_member_waiting [row] g u).length ≤ [row].length := by
      unfold get_member_waiting
      exact List.length_filter_le _ _
    simpa using hle
  · have h1 : get_member_waiting [row] g u = [] := by
      unfold get_member_waiting
      rw [List.filter_singleton]
      by_cases h1 : row.user_id = u
      · have h2 : row.guild_id ≠ g := fun h => hgu ⟨h1, h⟩
        simp [h1, h2]
      · simp [h1]
    rw [h1]
    simp only [List.length_nil, Nat.add_zero]
    exact hinv g u

/-- C2: imposing a restriction on a member who already has a waiting row is
rejected with `ValueError` before any side effect or insertion, and
`_unverify_member` preserves the at-most-one-waiting-row-per-(guild, user)
invariant. -/
theorem c2_imposition_rejects_and_keeps_singleton_waiting
    (db : UnverifyDb) (now : Int) (m : MemberCtx) (end_time : Int)
    (reason : String) (ty : UnverifyType) (keep : Option (List Nat))
    (uvRole : Option Nat) :
    ((∃ r ∈ db, r.status = UnverifyStatus.waiting ∧ r.guild_id = m.guild_id ∧
        r.user_id = m.user_id) →
      unverify_member db now m end_time reason ty keep uvRole
        = (.error .valueError, [], db)) ∧
    (atMostOneWaiting db →
      atMostOneWaiting
        (unverify_member db now m end_time reason ty keep uvRole).2.2) := by
  constructor
  · rintro ⟨r, hr, hst, hg, hu⟩
    have hmem : r ∈ get_member_waiting db m.guild_id m.user_id := by
      unfold get_member_waiting
      refine List.mem_filter.mpr ⟨hr, ?_⟩
      simp [hst, hg, hu]
    have hne : get_member_waiting db m.guild_id m.user_id ≠ [] :=
      List.ne_nil_of_mem hmem
    unfold unverify_member
    rw [if_pos hne]
  · intro hinv
    by_cases hw : get_member_waiting db m.guild_id m.user_id = []
    · unfold unverify_member
      rw [if_neg (by simp [hw])]
      show atMostOneWaiting (UnverifyItem.add db now m.guild_id m.user_id
        end_time (remove_roles m uvRole).1 (remove_or_keep_channels m keep).1
        (remove_or_keep_channels m keep).2.1
        (if reason.length > 1024 then reason.take 1024 else reason) ty).2
      by_cases hn : end_time < now
      · have heq : UnverifyItem.add db now m.guild_id m.user_id end_time
            (remove_roles m uvRole).1 (remove_or_keep_channels m keep).1
            (remove_or_keep_channels m keep).2.1
            (if reason.length > 1024 then reason.take 1024 else reason) ty
            = (.error .valueError, db) := by
          unfold UnverifyItem.add
          rw [if_pos hn]
        rw [heq]
        exact hinv
      · rw [add_inserts db now m.guild_id m.user_id end_time _ _ _ _ ty hn hw]
        exact atMostOneWaiting_append_added db _ (by simpa [addedRow] using hw)
          hinv
    · unfold unverify_member
      rw [if_pos hw]
      exact hinv

theorem c2_imposition_rejects_and_keeps_singleton_waiting_witness :
    (unverify_member
        [{ idx := 0, guild_id := 1, user_id := 2, start_time := 0, end_time := 10,
           last_check := none, roles_to_return := [], channels_to_return := [],
           channels_to_remove := [], reason := "r",
           status := UnverifyStatus.waiting, type := UnverifyType.unverify }]
        100
        { guild_id := 1, user_id := 2, roles := [5], channels := [] }
        200 "r" UnverifyType.unverify none (some 9)
      = (.error .valueError, [],
         [{ idx := 0, guild_id := 1, user_id := 2, start_time := 0, end_time := 10,
            last_check := none, roles_to_return := [], channels_to_return := [],
            channels_to_remove := [], reason := "r",
            status := UnverifyStatus.waiting, type := UnverifyType.unverify }])) ∧
    atMostOneWaiting
      (unverify_member ([] : UnverifyDb) 100
        { guild_id := 1, user_id := 2, roles := [5], channels := [] }
        200 "r" UnverifyType.unverify none (some 9)).2.2 :=
  ⟨(c2_imposition_rejects_and_keeps_singleton_waiting _ 100 _ 200 "r"
      UnverifyType.unverify none (some 9)).1
      ⟨_, List.mem_singleton.mpr rfl, rfl, rfl, rfl⟩,
    (c2_imposition_rejects_and_keeps_singleton_waiting [] 100
      { guild_id := 1, user_id := 2, roles := [5], channels := [] }
      200 "r" UnverifyType.unverify none (some 9)).2 (by decide)⟩

/-- Unfolding equation for the tick's loop. -/
theorem run_items_cons (lookup : UnverifyItem → LookupEnv) (now : Int)
    (i : UnverifyItem) (rest : List UnverifyItem) :
    run_items lookup now (i :: rest)
      = match reverify_user (lookup i) i now with
        | (.ok _, item1, effs) =>
          ((run_items lookup now rest).1,
           (item1, effs) :: (run_items lookup now rest).2)
        | (.error e, item1, effs) => (.error e, [(item1, effs)]) := rfl

/-- `Unverify._get_guild` on an unresolvable guild: the row is marked
`guild_not_found` (whatever its prior status), `last_check` is stamped, and
`NotFound` is raised. -/
theorem get_guild_absent (env : LookupEnv) (item : UnverifyItem) (now : Int)
    (hg : env.guildFound = false) :
    get_guild env item now
      = (.error .notFound,
         { item with status := UnverifyStatus.guild_not_found,
                     last_check := some now }) := by
  unfold get_guild
  simp only [hg, Bool.false_eq_true, if_false]
  by_cases h : item.status = UnverifyStatus.guild_not_found
  · rw [if_neg (by simp [h])]
    cases item
    simp_all
  · rw [if_pos h]

/-- C6: a record whose guild id resolves to no guild is marked
`guild_not_found` with a fresh `last_check`, the restore sequence returns
without an escaping exception, and the remaining records of the tick are
still processed. -/
theorem c6_guild_not_found_is_contained
    (lookup : UnverifyItem → LookupEnv) (item : UnverifyItem) (now : Int)
    (rest : List UnverifyItem)
    (hg : (lookup item).guildFound = false) :
    reverify_user (lookup item) item now
      = (.ok (),
         { item with status := UnverifyStatus.guild_not_found,
                     last_check := some now }, []) ∧
    run_items lookup now (item :: rest)
      = ((run_items lookup now rest).1,
         ({ item with status := UnverifyStatus.guild_not_found,
                      last_check := some now }, [])
           :: (run_items lookup now rest).2) := by
  have h1 : reverify_user (lookup item) item now
      = (.ok (),
         { item with status := UnverifyStatus.guild_not_found,
                     last_check := some now }, []) := by
    unfold reverify_user
    rw [get_guild_absent (lookup item) item now hg]
  refine ⟨h1, ?_⟩
  rw [run_items_cons, h1]

theorem c6_guild_not_found_is_contained_witness :
    reverify_user
        (({ guildFound := false, memberCached := true, memberFetchFound := true,
            guildRoles := [], guildChannels := [], unverifyRole := none,
            dmAllowed := true } : LookupEnv))
        { idx := 0, guild_id := 1, user_id := 2, start_time := 0, end_time := 10,
          last_check := none, roles_to_return := [], channels_to_return := [],
          channels_to_remove := [], reason := "r",
          status := UnverifyStatus.waiting, type := UnverifyType.unverify }
        100
      = (.ok (),
         { idx := 0, guild_id := 1, user_id := 2, start_time := 0, end_time := 10,
           last_check := some 100, roles_to_return := [], channels_to_return := [],
           channels_to_remove := [], reason := "r",
           status := UnverifyStatus.guild_not_found,
           type := UnverifyType.unverify }, []) :=
  (c6_guild_not_found_is_contained
    (fun _ => { guildFound := false, memberCached := true,
                memberFetchFound := true, guildRoles := [], guildChannels := [],
                unverifyRole := none, dmAllowed := true })
    { idx := 0, guild_id := 1, user_id := 2, start_time := 0, end_time := 10,
      last_check := none, roles_to_return := [], channels_to_return := [],
      channels_to_remove := [], reason := "r",
      status := UnverifyStatus.waiting, type := UnverifyType.unverify }
    100 [] rfl).1

/-- C5: the claim says an unresolvable member is marked `member_left` on the
first occurrence, `last_check` is stamped, and no exception escapes.  The
code cannot: when the fetch raises `NotFound` and the status is not yet
`member_left`, `_get_member` evaluates `member.guild.id` with `member = None`
(module.py line 85), so `AttributeError` is raised before any mutation,
escapes `_reverify_user` (which catches only `NotFound`), and aborts the
tick's loop, leaving the record unchanged. -/
theorem c5_member_not_found_first_occurrence_crashes
    (lookup : UnverifyItem → LookupEnv) (item : UnverifyItem) (now : Int)
    (rest : List UnverifyItem)
    (hg : (lookup item).guildFound = true)
    (hc : (lookup item).memberCached = false)
    (hf : (lookup item).memberFetchFound = false)
    (hs : item.status ≠ UnverifyStatus.member_left) :
    reverify_user (lookup item) item now = (.error .attributeError, item, []) ∧
    run_items lookup now (item :: rest)
      = (.error .attributeError, [(item, [])]) := by
  have h1 : reverify_user (lookup item) item now
      = (.error .attributeError, item, []) := by
    unfold reverify_user get_guild get_member
    simp [hg, hc, hf, hs]
  refine ⟨h1, ?_⟩
  rw [run_items_cons, h1]

theorem c5_member_not_found_first_occurrence_crashes_witness :
    reverify_user
        ({ guildFound := true, memberCached := false, memberFetchFound := false,
           guildRoles := [], guildChannels := [], unverifyRole := none,
           dmAllowed := true } : LookupEnv)
        { idx := 0, guild_id := 1, user_id := 2, start_time := 0, end_time := 10,
          last_check := none, roles_to_return := [], channels_to_return := [],
          channels_to_remove := [], reason := "r",
          status := UnverifyStatus.waiting, type := UnverifyType.unverify }
        100
      = (.error .attributeError,
         { idx := 0, guild_id := 1, user_id := 2, start_time := 0, end_time := 10,
           last_check := none, roles_to_return := [], channels_to_return := [],
           channels_to_remove := [], reason := "r",
           status := UnverifyStatus.waiting, type := UnverifyType.unverify }, []) :=
  (c5_member_not_found_first_occurrence_crashes
    (fun _ => { guildFound := true, memberCached := false,
                memberFetchFound := false, guildRoles := [], guildChannels := [],
                unverifyRole := none, dmAllowed := true })
    { idx := 0, guild_id := 1, user_id := 2, start_time := 0, end_time := 10,
      last_check := none, roles_to_return := [], channels_to_return := [],
      channels_to_remove := [], reason := "r",
      status := UnverifyStatus.waiting, type := UnverifyType.unverify }
    100 [] rfl rfl rfl (by decide)).1

/-- C7: the claim says a join into a never-used channel of the managed
category clears the stale lock mark, sends the welcome message, and re-runs
sync without raising.  The code cannot: the handler calls
`LockedChannels.set_lock(member.guild, after, False)` (module.py line 215)
but the `LockedChannels` class defines no `set_lock` attribute (database.py
lines 77-122), so the access raises `AttributeError` and neither the welcome
message nor the sync happens. -/
theorem c7_fresh_join_raises_attribute_error
    (category_id : Nat) (chIds : List Nat) (before : Option EvtChannel)
    (a : EvtChannel)
    (h1 : chIds.contains a.id = true)
    (h2 : a.categoryId = some category_id)
    (h3 : a.hasLastMessage = false)
    (h4 : before ≠ some a) :
    on_voice_state_update true category_id chIds before (some a)
      = (.error .attributeError, []) := by
  have hset : lockedChannelsMethods.contains "set_lock" = false := by decide
  have hmem : a.id ∈ chIds := by simpa using h1
  have hnset : "set_lock" ∉ lockedChannelsMethods := by decide
  unfold on_voice_state_update
  cases before with
  | none => simp [hmem, h2, h3, hnset]
  | some b =>
    have hba : (b == a) = false := by
      simp only [beq_eq_false_iff_ne, ne_eq]
      intro h
      exact h4 (by rw [h])
    simp [hmem, h2, h3, hnset, hba]

theorem c7_fresh_join_raises_attribute_error_witness :
    on_voice_state_update true 10 [3] none
        (some { id := 3, categoryId := some 10, hasLastMessage := false,
                membersCount := 1 })
      = (.error .attributeError, []) :=
  c7_fresh_join_raises_attribute_error 10 [3] none
    { id := 3, categoryId := some 10, hasLastMessage := false,
      membersCount := 1 }
    rfl rfl rfl (by decide)

/-- A fold that appends three component lists per element is the triple of
the per-component `flatMap`s. -/
theorem foldr_acc3 {α β γ δ : Type} (f : α → List β × List γ × List δ)
    (l : List α) :
    l.foldr (fun c acc =>
        ((f c).1 ++ acc.1, (f c).2.1 ++ acc.2.1, (f c).2.2 ++ acc.2.2))
      ([], [], [])
      = (l.flatMap (fun c => (f c).1), l.flatMap (fun c => (f c).2.1),
         l.flatMap (fun c => (f c).2.2)) := by
  induction l with
  | nil => rfl
  | cons c cs ih => simp [ih]

theorem remove_or_keep_channels_eq (m : MemberCtx) (keep : Option (List Nat)) :
    remove_or_keep_channels m keep
      = (m.channels.flatMap (fun c => (keep_or_remove_step keep c).1),
         m.channels.flatMap (fun c => (keep_or_remove_step keep c).2.1),
         m.channels.flatMap (fun c => (keep_or_remove_step keep c).2.2)) := by
  unfold remove_or_keep_channels
  exact foldr_acc3 (keep_or_remove_step keep) m.channels

theorem keep_or_remove_step_fst (keep : Option (List Nat)) (c : ChannelView) :
    (keep_or_remove_step keep c).1
      = if !c.isCategory && !inKeepB keep c.id && c.permsRead &&
            truthyOptBool c.overwRead then [c.id] else [] := by
  unfold keep_or_remove_step
  cases hcat : c.isCategory <;> cases hk : inKeepB keep c.id <;>
    cases hp : c.permsRead <;> cases ht : truthyOptBool c.overwRead <;>
    simp [hcat, hk, hp, ht]

theorem keep_or_remove_step_snd (keep : Option (List Nat)) (c : ChannelView) :
    (keep_or_remove_step keep c).2.1
      = if !c.isCategory && inKeepB keep c.id && !c.permsRead then [c.id]
        else [] := by
  unfold keep_or_remove_step
  cases hcat : c.isCategory <;> cases hk : inKeepB keep c.id <;>
    cases hp : c.permsRead <;> cases ht : truthyOptBool c.overwRead <;>
    simp [hcat, hk, hp, ht]

theorem keep_or_remove_step_thd (keep : Option (List Nat)) (c : ChannelView) :
    (keep_or_remove_step keep c).2.2
      = if !c.isCategory && inKeepB keep c.id && !c.permsRead then
          [IEffect.setRead c.id (some true)]
        else if !c.isCategory && !inKeepB keep c.id && c.permsRead &&
            truthyOptBool c.overwRead then
          [IEffect.setRead c.id (some false)]
        else [] := by
  unfold keep_or_remove_step
  cases hcat : c.isCategory <;> cases hk : inKeepB keep c.id <;>
    cases hp : c.permsRead <;> cases ht : truthyOptBool c.overwRead <;>
    simp [hcat, hk, hp, ht]

theorem flatMap_if_singleton {α β : Type} (p : α → Bool) (g : α → β)
    (l : List α) :
    l.flatMap (fun c => if p c then [g c] else []) = (l.filter p).map g := by
  induction l with
  | nil => rfl
  | cons c cs ih => by_cases h : p c <;> simp [h, ih]

/-- C4 counterexample: a non-category channel outside the keep list with
inherited read access (`permissions_for` grants read, no member overwrite) is
left completely untouched by `_remove_or_keep_channels` — not recorded as a
channel to return and with no overwrite applied — because the branch
`perms.read_messages and not user_overw.read_messages` is an explicit pass
(module.py lines 396-397), contradicting the claim that inherited read
access is removed. -/
theorem c4_counterexample_inherited_access_untouched :
    remove_or_keep_channels
        { guild_id := 1, user_id := 2, roles := [],
          channels := [{ id := 6, isCategory := false, permsRead := true,
                         overwRead := none }] } none
      = ([], [], []) ∧
    ¬ 6 ∈ (remove_or_keep_channels
        { guild_id := 1, user_id := 2, roles := [],
          channels := [{ id := 6, isCategory := false, permsRead := true,
                         overwRead := none }] } none).1 := by
  decide

/-- C4 amended: for every non-category channel, a kept channel the member
cannot read gets a read-granting overwrite and is recorded as a channel to
remove later; a channel outside the keep list whose read access comes with
an explicit `True` member overwrite has the overwrite set to deny and is
recorded as a channel to return later; every other channel — in particular
one with merely inherited read access, and one with no read access — is left
untouched.  Stated as the exact contents of the three outputs. -/
theorem c4_remove_or_keep_channels_exact (m : MemberCtx)
    (keep : Option (List Nat)) :
    (remove_or_keep_channels m keep).1
      = (m.channels.filter (fun c => !c.isCategory && !inKeepB keep c.id &&
          c.permsRead && truthyOptBool c.overwRead)).map (fun c => c.id)
    ∧ (remove_or_keep_channels m keep).2.1
      = (m.channels.filter (fun c => !c.isCategory && inKeepB keep c.id &&
          !c.permsRead)).map (fun c => c.id)
    ∧ (remove_or_keep_channels m keep).2.2
      = m.channels.flatMap (fun c =>
          if !c.isCategory && inKeepB keep c.id && !c.permsRead then
            [IEffect.setRead c.id (some true)]
          else if !c.isCategory && !inKeepB keep c.id && c.permsRead &&
              truthyOptBool c.overwRead then
            [IEffect.setRead c.id (some false)]
          else []) := by
  rw [remove_or_keep_channels_eq]
  refine ⟨?_, ?_, ?_⟩
  · simp only [keep_or_remove_step_fst]
    exact flatMap_if_singleton _ _ _
  · simp only [keep_or_remove_step_snd]
    exact flatMap_if_singleton _ _ _
  · simp only [keep_or_remove_step_thd]

/-! ### C3 helpers -/

/-- Number of empty voice channels of a kind (carrying the HI-RES name tag
or not) in a category. -/
def emptyKindCount (cat : Category) (hiRes : Bool) : Nat :=
  (cat.channels.filter (fun x =>
    x.isVoice && x.membersCount == 0 && (hiRes == isHiRes x.name))).length

theorem create_channel_isHiRes (cat : Category) (b : Option Int) (ai ni : Nat) :
    isHiRes (create_channel cat b ai ni).2.name = truthyOptInt b := by
  unfold create_channel
  cases htr : truthyOptInt b <;>
    simp [htr, isHiRes_mark_append, isHiRes_twoWordName]

theorem create_channel_fields (cat : Category) (b : Option Int) (ai ni : Nat) :
    (create_channel cat b ai ni).2.isVoice = true ∧
    (create_channel cat b ai ni).2.membersCount = 0 ∧
    (create_channel cat b ai ni).2.hasLastMessage = false ∧
    (create_channel cat b ai ni).1.channels
      = cat.channels ++ [(create_channel cat b ai ni).2] ∧
    (create_channel cat b ai ni).1.guildBitrateLimit = cat.guildBitrateLimit :=
  ⟨rfl, rfl, rfl, rfl, rfl⟩

/-- When a category holds no empty channel of the kind, one maintenance pass
just appends one freshly created channel of the kind. -/
theorem maintain_no_empty_of_kind (cat : Category) (bitrate : Option Int)
    (ai ni : Nat) (h : empty_channels_of cat bitrate = []) :
    (maintain_one_empty cat bitrate ai ni).category
      = { channels := cat.channels ++ [(create_channel cat bitrate ai ni).2],
          guildBitrateLimit := cat.guildBitrateLimit } := by
  have habn : abandoned_channels_of cat bitrate = [] := by
    unfold abandoned_channels_of
    rw [h]
    rfl
  unfold maintain_one_empty
  rw [h, habn]
  simp [create_channel]

/-! ### C3 -/

/-- C3: one maintain-one-empty-channel pass deletes every empty, previously
used voice channel of the kind and creates exactly one channel iff the count
of fresh empty channels of the kind (empty channels minus abandoned ones) is
below one; consequently a sync pass on a category with no channels leaves
exactly one standard empty channel, and also exactly one high-bitrate one
when a bitrate is configured. -/
theorem c3_maintain_quota
    (cat : Category) (bitrate : Option Int) (ai ni : Nat)
    (validG liveC : Nat → Bool) (locked : List LockedRow) (ecat : Category)
    (hiRate : Option Int) (a1 n1 a2 n2 : Nat) :
    (∀ c ∈ cat.channels, c.isVoice = true → c.membersCount = 0 →
        bitrate.isSome = isHiRes c.name → c.hasLastMessage = true →
        c ∈ (maintain_one_empty cat bitrate ai ni).deleted ∧
          c ∉ (maintain_one_empty cat bitrate ai ni).category.channels) ∧
    ((maintain_one_empty cat bitrate ai ni).created.isSome ↔
        ((empty_channels_of cat bitrate).length : Int)
          - ((abandoned_channels_of cat bitrate).length : Int) < 1) ∧
    (ecat.channels = [] →
        emptyKindCount
          (sync_pass validG liveC locked ecat hiRate a1 n1 a2 n2).2 false = 1 ∧
        (truthyOptInt hiRate = true →
          emptyKindCount
            (sync_pass validG liveC locked ecat hiRate a1 n1 a2 n2).2 true
            = 1)) := by
  refine ⟨?_, ?_, ?_⟩
  · intro c hc hv hm hk hl
    have habn : c ∈ abandoned_channels_of cat bitrate := by
      unfold abandoned_channels_of empty_channels_of
      refine List.mem_filter.mpr ⟨List.mem_filter.mpr ⟨hc, ?_⟩, by simp [hl]⟩
      simp [hv, hm, hk]
    constructor
    · exact habn
    · intro hmem
      have hfil := List.of_mem_filter hmem
      rw [decide_eq_true_eq] at hfil
      exact hfil habn
  · by_cases h : ((empty_channels_of cat bitrate).length : Int)
        - ((abandoned_channels_of cat bitrate).length : Int) < 1 <;>
      simp [maintain_one_empty, h]
  · intro hch
    by_cases htr : truthyOptInt hiRate = true
    · have h1 : empty_channels_of ecat hiRate = [] := by
        unfold empty_channels_of
        rw [hch]
        rfl
      have hm1 := maintain_no_empty_of_kind ecat hiRate a1 n1 h1
      have hf1 := create_channel_fields ecat hiRate a1 n1
      have hhi1 : isHiRes (create_channel ecat hiRate a1 n1).2.name = true := by
        rw [create_channel_isHiRes, htr]
      have hcat1c : (maintain_one_empty ecat hiRate a1 n1).category.channels
          = [(create_channel ecat hiRate a1 n1).2] := by
        rw [hm1]
        show ecat.channels ++ [(create_channel ecat hiRate a1 n1).2] = _
        rw [hch]
        rfl
      have h2 : empty_channels_of
          (maintain_one_empty ecat hiRate a1 n1).category (none : Option Int)
          = [] := by
        unfold empty_channels_of
        rw [hcat1c]
        simp [hhi1]
      have hm2 := maintain_no_empty_of_kind
        (maintain_one_empty ecat hiRate a1 n1).category none a2 n2 h2
      have hf2 := create_channel_fields
        (maintain_one_empty ecat hiRate a1 n1).category none a2 n2
      have hhi2 : isHiRes (create_channel
          (maintain_one_empty ecat hiRate a1 n1).category none a2 n2).2.name
          = false := by
        rw [create_channel_isHiRes]
        rfl
      have hfinal : (sync_pass validG liveC locked ecat hiRate a1 n1 a2 n2).2.channels
          = [(create_channel ecat hiRate a1 n1).2,
             (create_channel
               (maintain_one_empty ecat hiRate a1 n1).category none a2 n2).2] := by
        show (maintain_one_empty
            (if truthyOptInt hiRate = true then
              (maintain_one_empty ecat hiRate a1 n1).category
            else ecat) none a2 n2).category.channels = _
        rw [if_pos htr, hm2]
        show (maintain_one_empty ecat hiRate a1 n1).category.channels ++ _ = _
        rw [hcat1c]
        rfl
      constructor
      · unfold emptyKindCount
        rw [hfinal]
        simp [hhi1, hhi2, hf1.1, hf1.2.1, hf2.1, hf2.2.1]
      · intro _
        unfold emptyKindCount
        rw [hfinal]
        simp [hhi1, hhi2, hf1.1, hf1.2.1, hf2.1, hf2.2.1]
    · have h1 : empty_channels_of ecat (none : Option Int) = [] := by
        unfold empty_channels_of
        rw [hch]
        rfl
      have hm1 := maintain_no_empty_of_kind ecat none a2 n2 h1
      have hf2 := create_channel_fields ecat none a2 n2
      have hhi2 : isHiRes (create_channel ecat (none : Option Int) a2 n2).2.name
          = false := by
        rw [create_channel_isHiRes]
        rfl
      have hfinal : (sync_pass validG liveC locked ecat hiRate a1 n1 a2 n2).2.channels
          = [(create_channel ecat (none : Option Int) a2 n2).2] := by
        show (maintain_one_empty
            (if truthyOptInt hiRate = true then
              (maintain_one_empty ecat hiRate a1 n1).category
            else ecat) none a2 n2).category.channels = _
        rw [if_neg htr, hm1]
        show ecat.channels ++ _ = _
        rw [hch]
        rfl
      constructor
      · unfold emptyKindCount
        rw [hfinal]
        simp [hhi2, hf2.1, hf2.2.1]
      · intro hcon
        exact absurd hcon htr

theorem c3_maintain_quota_witness :
    ({ id := 0, isVoice := true, name := "Red cat", membersCount := 0,
       hasLastMessage := true, bitrate := none } : VChannel)
      ∈ (maintain_one_empty
          { channels := [{ id := 0, isVoice := true, name := "Red cat",
                           membersCount := 0, hasLastMessage := true,
                           bitrate := none }],
            guildBitrateLimit := 96000 } none 0 0).deleted ∧
    emptyKindCount
      (sync_pass (fun _ => true) (fun _ => true) []
        { channels := [], guildBitrateLimit := 96000 }
        (some 128000) 0 0 1 1).2 false = 1 ∧
    emptyKindCount
      (sync_pass (fun _ => true) (fun _ => true) []
        { channels := [], guildBitrateLimit := 96000 }
        (some 128000) 0 0 1 1).2 true = 1 := by
  have h := c3_maintain_quota
    { channels := [{ id := 0, isVoice := true, name := "Red cat",
                     membersCount := 0, hasLastMessage := true,
                     bitrate := none }],
      guildBitrateLimit := 96000 } none 0 0
    (fun _ => true) (fun _ => true) []
    { channels := [], guildBitrateLimit := 96000 } (some 128000) 0 0 1 1
  refine ⟨?_, (h.2.2 rfl).1, (h.2.2 rfl).2 (by decide)⟩
  exact (h.1
    { id := 0, isVoice := true, name := "Red cat", membersCount := 0,
      hasLastMessage := true, bitrate := none }
    (by decide) rfl rfl (by decide) rfl).1

end Mgmt
